import Mathlib

/-!
# Contact form controller (`src/form-handler.js`)

A shallow embedding of the contact-form validation and submission code.

* A JavaScript string is a finite sequence of UTF-16 code units, so a field
  value is a `List Nat`; `value.length` is the length of that list, and the
  regular expression (which has no `u` flag) consumes one code unit at a time.
* `String.prototype.trim` and the regex class `\s` use the same set of code
  units (ECMAScript WhiteSpace and LineTerminator).
* The DOM is explicit state: the two class marks of a field, the text of the
  element next to it, the submit button, the pending timers, and a log of the
  calls made to collaborators (`showToast`, `console`, `gtag`).
-/

namespace ContactForm

/-! ## Strings -/

/-- A JavaScript string: its UTF-16 code units. -/
abbrev JSString := List Nat

/-- UTF-16 encoding of one Unicode scalar value. -/
def utf16 (c : Char) : List Nat :=
  if c.toNat < 0x10000 then [c.toNat]
  else [0xD800 + (c.toNat - 0x10000) / 0x400, 0xDC00 + (c.toNat - 0x10000) % 0x400]

/-- The JavaScript string written by a literal. -/
def js (s : String) : JSString :=
  s.toList.foldr (fun c acc => utf16 c ++ acc) []

/-- Code units that `trim` strips and that `\s` matches: TAB, LF, VT, FF, CR,
space, NBSP, U+1680, U+2000..U+200A, LS, PS, U+202F, U+205F, U+3000, BOM. -/
def isWhiteSpace (u : Nat) : Bool :=
  u == 0x09 || u == 0x0A || u == 0x0B || u == 0x0C || u == 0x0D || u == 0x20 ||
  u == 0xA0 || u == 0x1680 || (0x2000 ≤ u && u ≤ 0x200A) || u == 0x2028 ||
  u == 0x2029 || u == 0x202F || u == 0x205F || u == 0x3000 || u == 0xFEFF

/-- `String.prototype.trim`: strip white space at both ends. -/
def trim (s : JSString) : JSString :=
  ((s.dropWhile isWhiteSpace).reverse.dropWhile isWhiteSpace).reverse

/-! ## The regular expression -/

/-- The pieces the email regex is built from: a single code unit of a class,
or `+` applied to a class. -/
inductive Atom where
  | one (p : Nat → Bool)
  | many1 (p : Nat → Bool)

/-- `regex.test(s)` for `/^ atoms $/`: a backtracking match of the whole
string (no flags, so `^` and `$` are the two ends of the input). -/
def regexTest : List Atom → JSString → Bool
  | [], [] => true
  | [], _ :: _ => false
  | _ :: _, [] => false
  | Atom.one p :: rest, c :: s => p c && regexTest rest s
  | Atom.many1 p :: rest, c :: s =>
      p c && (regexTest (Atom.many1 p :: rest) s || regexTest rest s)

/-- The class `[^\s@]`. -/
def notSpaceAt (u : Nat) : Bool := !isWhiteSpace u && u != 0x40

/-- The class `\S`. -/
def notSpace (u : Nat) : Bool := !isWhiteSpace u

/-- `/^[^\s@]+@[^\s@]+\.[^\s@]+$/` (lines 66 and 240). -/
def emailRegex : List Atom :=
  [Atom.many1 notSpaceAt, Atom.one (fun u => u == 0x40), Atom.many1 notSpaceAt,
   Atom.one (fun u => u == 0x2E), Atom.many1 notSpaceAt]

/-- `validateEmail` (lines 239-242). -/
def validateEmail (email : JSString) : Bool :=
  regexTest emailRegex email

/-- The pattern as the specification words it: the part after the dot is
"one or more non-space characters", i.e. `/^[^\s@]+@[^\s@]+\.\S+$/`. -/
def specEmailRegex : List Atom :=
  [Atom.many1 notSpaceAt, Atom.one (fun u => u == 0x40), Atom.many1 notSpaceAt,
   Atom.one (fun u => u == 0x2E), Atom.many1 notSpace]

/-! ## Fields -/

/-- The element after a field (`field.nextElementSibling`). -/
structure Sibling where
  /-- Whether its class list contains `invalid-feedback`. -/
  invalidFeedback : Bool
  textContent : String
  deriving DecidableEq, Repr

/-- A form control, with the DOM state the code reads and writes. -/
structure Field where
  name : String
  type : String
  /-- Whether the control has the attribute `required`. -/
  required : Bool
  value : JSString
  /-- The value `form.reset()` restores. -/
  defaultValue : JSString
  /-- Whether the class list contains `is-valid`. -/
  isValid : Bool
  /-- Whether the class list contains `is-invalid`. -/
  isInvalid : Bool
  nextElementSibling : Option Sibling
  deriving DecidableEq, Repr

def msgRequired : String := "This field is required."
def msgEmail : String := "Please enter a valid email address."
def msgName : String := "Name must be at least 2 characters long."
def msgMessage : String := "Message must be at least 10 characters long."

/-- Condition of the `if` on line 59. -/
def requiredFails (field : Field) : Bool :=
  field.required && (trim field.value).isEmpty

/-- Conditions of the two nested `if`s on lines 65 and 67. -/
def emailFails (field : Field) : Bool :=
  (field.type == "email" && !(trim field.value).isEmpty) &&
    !regexTest emailRegex (trim field.value)

/-- Condition of the `if` on line 74. -/
def nameFails (field : Field) : Bool :=
  field.name == "name" && !(trim field.value).isEmpty &&
    decide ((trim field.value).length < 2)

/-- Condition of the `if` on line 80. -/
def messageFails (field : Field) : Bool :=
  field.name == "message" && !(trim field.value).isEmpty &&
    decide ((trim field.value).length < 10)

/-- Lines 54-83 of `validateField`: the values of `isValid` and `errorMessage`
when line 85 is reached. Each `if` that fires assigns both variables. -/
def checkField (field : Field) : Bool × String :=
  let s0 : Bool × String := (true, "")
  let s1 := if requiredFails field then (false, msgRequired) else s0
  let s2 := if emailFails field then (false, msgEmail) else s1
  let s3 := if nameFails field then (false, msgName) else s2
  let s4 := if messageFails field then (false, msgMessage) else s3
  s4

/-- Lines 94-97: the error text is written only when the next element exists
and carries the class `invalid-feedback`. -/
def setFeedback (sib : Option Sibling) (errorMessage : String) : Option Sibling :=
  match sib with
  | some fb => if fb.invalidFeedback then some { fb with textContent := errorMessage } else some fb
  | none => none

/-- `validateField` (lines 53-101): the returned `isValid` and the field as
the DOM updates of lines 85-98 leave it. -/
def validateField (field : Field) : Bool × Field :=
  let r := checkField field
  if r.1 then
    (true, { field with isInvalid := false, isValid := true })
  else
    (false, { field with isValid := false, isInvalid := true,
                         nextElementSibling := setFeedback field.nextElementSibling r.2 })

/-- The `input` listener (lines 34-37), run once the browser has stored the
typed value in the control: both marks are removed, nothing else is touched. -/
def onInput (field : Field) (value : JSString) : Field :=
  { field with value := value, isValid := false, isInvalid := false }

/-! ## The form and its submission -/

/-- The submit button with its `.btn-text` and `.btn-loading` children. -/
structure SubmitBtn where
  disabled : Bool
  /-- Whether the class list contains `loading`. -/
  loading : Bool
  /-- The value of `btnText.style.display`. -/
  btnTextDisplay : String
  /-- Whether the class list of `.btn-loading` contains `d-none`. -/
  btnLoadingHidden : Bool
  deriving DecidableEq, Repr

/-- The object `data` built on lines 109-114; `FormData.get` gives `null`
when no control has the name. -/
structure SubmissionData where
  name : Option JSString
  email : Option JSString
  subject : Option JSString
  message : Option JSString
  deriving DecidableEq, Repr

/-- A call to a collaborator outside the controller. -/
inductive Call where
  | showToast (type : String) (message : String)
  | consoleWarn (message : String)
  | consoleLog (message : String) (data : SubmissionData)
  | gtag (command : String) (eventName : String) (category : String) (label : String)
  deriving DecidableEq, Repr

/-- What the closures of `initializeContactForm` share, on a page that has the
form and the button: the controls of the form in document order, the button,
the callbacks registered with `setTimeout` and not yet run (each holds its
`data`), the calls made so far, and whether the global `gtag` is defined. -/
structure Controller where
  form : List Field
  submitBtn : SubmitBtn
  timers : List SubmissionData
  calls : List Call
  gtagDefined : Bool
  deriving DecidableEq, Repr

/-- `validateForm` (lines 40-51): `forEach` over the controls selected by
`[required]`, calling `validateField` on each; the other controls are not
touched. -/
def validateForm (form : List Field) : Bool × List Field :=
  form.foldl
    (fun (acc : Bool × List Field) field =>
      if field.required then
        let r := validateField field
        (if !r.1 then false else acc.1, acc.2 ++ [r.2])
      else (acc.1, acc.2 ++ [field]))
    (true, [])

/-- `setLoadingState` (lines 131-143). -/
def setLoadingState (loading : Bool) (btn : SubmitBtn) : SubmitBtn :=
  if loading then
    { btn with disabled := true, loading := true, btnTextDisplay := "none",
               btnLoadingHidden := false }
  else
    { btn with disabled := false, loading := false, btnTextDisplay := "inline",
               btnLoadingHidden := true }

/-- `new FormData(form).get(name)`: the value of the first control of that
name, as it stands (not trimmed). -/
def formDataGet (form : List Field) (name : String) : Option JSString :=
  (form.find? (fun f => f.name == name)).map (fun f => f.value)

/-- Lines 108-114. -/
def formSnapshot (form : List Field) : SubmissionData :=
  { name := formDataGet form "name", email := formDataGet form "email",
    subject := formDataGet form "subject", message := formDataGet form "message" }

/-- `submitForm` (lines 103-129) up to the return of `setTimeout`: the button
goes to loading, the values are read, and the callback is registered. -/
def submitForm (c : Controller) : Controller :=
  let c1 := { c with submitBtn := setLoadingState true c.submitBtn }
  let data := formSnapshot c1.form
  { c1 with timers := c1.timers ++ [data] }

/-- The `submit` listener (lines 18-25). -/
def onSubmit (c : Controller) : Controller :=
  let r := validateForm c.form
  let c1 := { c with form := r.2 }
  if r.1 then submitForm c1 else c1

def msgSuccess : String := "Message sent successfully! I\x27ll get back to you soon."
def msgFailure : String := "Failed to send message. Please try again."

/-- `form.reset()` followed by lines 151-153: every control goes back to its
default value, and every control carrying `is-valid` or `is-invalid` loses
both classes. -/
def resetForm (form : List Field) : List Field :=
  (form.map (fun f => { f with value := f.defaultValue })).map
    (fun f => if f.isValid || f.isInvalid then { f with isValid := false, isInvalid := false } else f)

/-- `handleSubmissionSuccess` (lines 145-165). -/
def handleSubmissionSuccess (data : SubmissionData) (c : Controller) : Controller :=
  let c1 := { c with calls := c.calls ++ [Call.showToast "success" msgSuccess] }
  let c2 := { c1 with form := resetForm c1.form }
  let c3 := { c2 with calls := c2.calls ++ [Call.consoleLog "Form submitted successfully:" data] }
  if c3.gtagDefined then
    { c3 with calls := c3.calls ++ [Call.gtag "event" "form_submit" "Contact" "Contact Form"] }
  else c3

/-- `handleSubmissionError` (lines 167-178). -/
def handleSubmissionError (c : Controller) : Controller :=
  let c1 := { c with calls := c.calls ++ [Call.showToast "error" msgFailure] }
  if c1.gtagDefined then
    { c1 with calls := c1.calls ++ [Call.gtag "event" "form_error" "Contact" "Contact Form Error"] }
  else c1

/-- The callback given to `setTimeout` (lines 117-128); `success` is the value
of `Math.random() > 0.1` drawn on line 119. -/
def timerCallback (success : Bool) (data : SubmissionData) (c : Controller) : Controller :=
  let c1 := if success then handleSubmissionSuccess data c else handleSubmissionError c
  { c1 with submitBtn := setLoadingState false c1.submitBtn }

/-- The oldest pending timer fires (all timers have the same delay, so they
run in the order they were set); nothing happens when none is pending. -/
def fireTimer (success : Bool) (c : Controller) : Controller :=
  match c.timers with
  | [] => c
  | data :: rest => timerCallback success data { c with timers := rest }

/-- Number of calls to `showToast` in a log. -/
def toastCount (calls : List Call) : Nat :=
  (calls.filter (fun call => match call with
    | Call.showToast _ _ => true
    | _ => false)).length

/-! ## Initialisation -/

/-- An exception raised by the JavaScript engine. -/
inductive JSError where
  | typeError (message : String)
  deriving DecidableEq, Repr

/-- The error of reading `querySelector` on `null`. -/
def nullQuerySelector : JSError :=
  JSError.typeError "Cannot read properties of null (reading \x27querySelector\x27)"

/-- What `document.getElementById` finds for the two ids of lines 7-8. -/
structure Page where
  contactForm : Option (List Field)
  submitBtn : Option SubmitBtn
  gtagDefined : Bool
  deriving DecidableEq, Repr

/-- How `initializeContactForm` ends when it does not throw: either it warned
and returned on line 14, or it registered its listeners. -/
inductive InitResult where
  | skipped (calls : List Call)
  | installed (c : Controller)
  deriving DecidableEq, Repr

/-- `initializeContactForm` (lines 6-38). Line 9 reads a property of
`submitBtn` before anything is tested, which throws a `TypeError` when
`submitBtn` is `null`; the test of `form` comes after, on line 12. -/
def initializeContactForm (page : Page) : Except JSError InitResult :=
  match page.submitBtn with
  | none => Except.error nullQuerySelector
  | some btn =>
    match page.contactForm with
    | none => Except.ok (InitResult.skipped [Call.consoleWarn "Contact form not found"])
    | some form =>
      Except.ok (InitResult.installed
        { form := form, submitBtn := btn, timers := [], calls := [], gtagDefined := page.gtagDefined })

/-! ## Reference statements and sample inputs -/

/-- The validator as the specification words it (rules 1-5, "evaluated in
order, first failure wins"): `none` is Valid, `some reason` is Invalid. -/
def specFieldValidator (field : Field) : Option String :=
  if requiredFails field then some msgRequired
  else if emailFails field then some msgEmail
  else if nameFails field then some msgName
  else if messageFails field then some msgMessage
  else none

/-- The message of the last rule, in the order of the source, that fails. -/
def lastFailure (field : Field) : Option String :=
  if messageFails field then some msgMessage
  else if nameFails field then some msgName
  else if emailFails field then some msgEmail
  else if requiredFails field then some msgRequired
  else none

/-- A string of the shape `a @ b . c`, with `a`, `b`, `c` non-empty, `a` and
`b` made of code units that are neither white space nor `@`, and `c` made of
code units of the class `last`. -/
def EmailShape (last : Nat → Bool) (v : JSString) : Prop :=
  ∃ a b c : JSString, v = a ++ 0x40 :: (b ++ 0x2E :: c) ∧ a ≠ [] ∧ b ≠ [] ∧ c ≠ [] ∧
    (∀ u ∈ a, notSpaceAt u = true) ∧ (∀ u ∈ b, notSpaceAt u = true) ∧
    (∀ u ∈ c, last u = true)

/-- A fresh control: no class mark, default value empty, followed by an
empty `invalid-feedback` element. -/
def mkField (name type : String) (required : Bool) (value : String) : Field :=
  { name := name, type := type, required := required, value := js value,
    defaultValue := [], isValid := false, isInvalid := false,
    nextElementSibling := some { invalidFeedback := true, textContent := "" } }

/-- The input of kind email named `name` holding `a`. -/
def emailFieldNamedName : Field := mkField "name" "email" true "a"

/-- An input of kind email holding `a@b.c@d`. -/
def emailFieldAtAfterDot : Field := mkField "email" "email" true "a@b.c@d"

/-- Whether `validateField` returns true for every required control. -/
def allRequiredValid (form : List Field) : Bool :=
  form.all (fun f => !f.required || (validateField f).1)

/-- The button before any submission: enabled, label shown, spinner hidden. -/
def idleBtn : SubmitBtn :=
  { disabled := false, loading := false, btnTextDisplay := "inline", btnLoadingHidden := true }

/-- The four controls of the end-to-end example of the specification, all
filled with valid values. -/
def sampleForm : List Field :=
  [mkField "name" "text" true "Al", mkField "email" "email" true "al@x.com",
   mkField "subject" "text" true "Hi", mkField "message" "textarea" true "Hello there!"]

/-- The controller on a freshly loaded page with the sample form filled in. -/
def idleController : Controller :=
  { form := sampleForm, submitBtn := idleBtn, timers := [], calls := [], gtagDefined := false }

/-- A control whose markup gives it the default value `Hi` and in which the
user has typed `Hello`. -/
def prefilledSubject : Field :=
  { mkField "subject" "text" true "Hello" with defaultValue := js "Hi" }

/-- A controller whose form is that one control, while a submission is in
flight. -/
def prefilledController : Controller :=
  { form := [prefilledSubject],
    submitBtn := setLoadingState true idleBtn,
    timers := [formSnapshot [prefilledSubject]],
    calls := [],
    gtagDefined := false }

/-- A page with neither the form nor the button. -/
def pageWithoutForm : Page :=
  { contactForm := none, submitBtn := none, gtagDefined := false }

/-- A required name input in which the user has typed `A`. -/
def shortNameField : Field := mkField "name" "text" true "A"

/-- The same input after it lost focus with `A` (which showed the reason) and
the user then completed the name to `Al`. -/
def completedNameField : Field := onInput (validateField shortNameField).2 (js "Al")

/-- A name input holding `A` whose next element is a help text without the
class `invalid-feedback`. -/
def helpTextField : Field :=
  { mkField "name" "text" true "A" with
      nextElementSibling := some { invalidFeedback := false, textContent := "Your name" } }

/-! ## Lemmas on strings and on the matcher -/


theorem trim_eq_nil_iff (s : JSString) : trim s = [] ↔ ∀ u ∈ s, isWhiteSpace u = true := by
  unfold trim
  rw [List.reverse_eq_nil_iff, List.dropWhile_eq_nil_iff]
  constructor
  · intro h
    have h2 : ∀ u ∈ s.dropWhile isWhiteSpace, isWhiteSpace u = true := by
      intro u hu; exact h u (List.mem_reverse.mpr hu)
    have h3 : (s.dropWhile isWhiteSpace).dropWhile isWhiteSpace = [] :=
      List.dropWhile_eq_nil_iff.mpr h2
    rw [List.dropWhile_idempotent] at h3
    exact List.dropWhile_eq_nil_iff.mp h3
  · intro h u hu
    have : s.dropWhile isWhiteSpace = [] := List.dropWhile_eq_nil_iff.mpr h
    rw [this] at hu
    simp at hu

theorem regexTest_nil (s : JSString) : regexTest [] s = true ↔ s = [] := by
  cases s <;> simp [regexTest]

theorem regexTest_one (p : Nat → Bool) (rest : List Atom) (s : JSString) :
    regexTest (Atom.one p :: rest) s = true ↔
      ∃ c t, s = c :: t ∧ p c = true ∧ regexTest rest t = true := by
  cases s with
  | nil => simp [regexTest]
  | cons c t =>
    simp only [regexTest, Bool.and_eq_true, List.cons.injEq]
    constructor
    · rintro ⟨hc, ht⟩
      exact ⟨c, t, ⟨rfl, rfl⟩, hc, ht⟩
    · rintro ⟨c1, t1, ⟨rfl, rfl⟩, hc, ht⟩
      exact ⟨hc, ht⟩

theorem regexTest_many1 (p : Nat → Bool) (rest : List Atom) (s : JSString) :
    regexTest (Atom.many1 p :: rest) s = true ↔
      ∃ a t, s = a ++ t ∧ a ≠ [] ∧ (∀ u ∈ a, p u = true) ∧ regexTest rest t = true := by
  induction s with
  | nil =>
    simp [regexTest]
  | cons c s ih =>
    simp only [regexTest, Bool.and_eq_true, Bool.or_eq_true, ih]
    constructor
    · rintro ⟨hc, h | h⟩
      · obtain ⟨a, t, rfl, _, ha, ht⟩ := h
        exact ⟨c :: a, t, rfl, by simp, by simpa [hc] using ha, ht⟩
      · exact ⟨[c], s, rfl, by simp, by simpa using hc, h⟩
    · rintro ⟨a, t, hs, hne, ha, ht⟩
      cases a with
      | nil => exact absurd rfl hne
      | cons x a =>
        simp only [List.cons_append, List.cons.injEq] at hs
        obtain ⟨rfl, rfl⟩ := hs
        refine ⟨ha c (by simp), ?_⟩
        cases a with
        | nil => right; simpa using ht
        | cons y a =>
          left
          exact ⟨y :: a, t, rfl, by simp, fun u hu => ha u (by simp at hu ⊢; tauto), ht⟩

/-- What a regex of the form `/^[^\s@]+@[^\s@]+\.L+$/` accepts, for any class
`L` of the last part. -/
theorem regexTest_shape (last : Nat → Bool) (v : JSString) :
    regexTest [Atom.many1 notSpaceAt, Atom.one (fun u => u == 0x40), Atom.many1 notSpaceAt,
      Atom.one (fun u => u == 0x2E), Atom.many1 last] v = true ↔ EmailShape last v := by
  unfold EmailShape
  simp only [regexTest_many1, regexTest_one, regexTest_nil]
  constructor
  · rintro ⟨a, t, rfl, ha, hpa, c1, t1, rfl, hc1, b, t2, rfl, hb, hpb, c2, t3, rfl, hc2,
      c, t4, rfl, hc, hpc, rfl⟩
    have e1 : c1 = 0x40 := by simpa using hc1
    have e2 : c2 = 0x2E := by simpa using hc2
    subst e1 e2
    exact ⟨a, b, c, by simp, ha, hb, hc, hpa, hpb, hpc⟩
  · rintro ⟨a, b, c, rfl, ha, hb, hc, hpa, hpb, hpc⟩
    exact ⟨a, _, rfl, ha, hpa, 0x40, _, rfl, by simp, b, _, rfl, hb, hpb, 0x2E, _, rfl,
      by simp, c, [], by simp, hc, hpc, rfl⟩

/-- What the email regex of the source accepts. -/
theorem regexTest_emailRegex (v : JSString) :
    regexTest emailRegex v = true ↔ EmailShape notSpaceAt v :=
  regexTest_shape notSpaceAt v

/-- What the regex worded by the specification accepts. -/
theorem regexTest_specEmailRegex (v : JSString) :
    regexTest specEmailRegex v = true ↔ EmailShape notSpace v :=
  regexTest_shape notSpace v

/-- A string of the email shape has at least five code units. -/
theorem EmailShape.five_le_length {last : Nat → Bool} {v : JSString}
    (h : EmailShape last v) : 5 ≤ v.length := by
  obtain ⟨a, b, c, rfl, ha, hb, hc, -, -, -⟩ := h
  have h1 : 0 < a.length := List.length_pos.mpr ha
  have h2 : 0 < b.length := List.length_pos.mpr hb
  have h3 : 0 < c.length := List.length_pos.mpr hc
  simp only [List.length_append, List.length_cons]
  omega

/-- `validateField` returns true exactly when no rule fails. -/
theorem validateField_fst (field : Field) :
    (validateField field).1 =
      (!requiredFails field && !emailFails field && !nameFails field &&
        !messageFails field) := by
  unfold validateField checkField
  cases requiredFails field <;> cases emailFails field <;> cases nameFails field <;>
    cases messageFails field <;> rfl

/-- The marks and the text that `validateField` leaves when it returns false. -/
theorem validateField_invalid_display (field : Field) (m : String)
    (h : checkField field = (false, m)) :
    (validateField field).1 = false ∧
    (validateField field).2.isInvalid = true ∧
    (validateField field).2.isValid = false ∧
    ∀ fb, field.nextElementSibling = some fb → fb.invalidFeedback = true →
      (validateField field).2.nextElementSibling = some { fb with textContent := m } := by
  refine ⟨by simp [validateField, h], by simp [validateField, h],
    by simp [validateField, h], ?_⟩
  intro fb hfb hcls
  simp [validateField, h, hfb, setFeedback, hcls]

/-- The value of `isValid` and `errorMessage` in terms of the last failing
rule. -/
theorem checkField_eq_lastFailure (field : Field) :
    checkField field =
      (match lastFailure field with
       | none => (true, "")
       | some m => (false, m)) := by
  unfold checkField lastFailure
  cases requiredFails field <;> cases emailFails field <;> cases nameFails field <;>
    cases messageFails field <;> rfl

/-! ## Lemmas on the form -/

/-- The loop of `validateForm`, started from any value of `isValid` and any
list of controls already visited. -/
theorem validateForm_foldl (form : List Field) (b : Bool) (acc : List Field) :
    form.foldl
      (fun (acc : Bool × List Field) field =>
        if field.required then
          let r := validateField field
          (if !r.1 then false else acc.1, acc.2 ++ [r.2])
        else (acc.1, acc.2 ++ [field]))
      (b, acc) =
    (b && allRequiredValid form,
     acc ++ form.map (fun f => if f.required then (validateField f).2 else f)) := by
  induction form generalizing b acc with
  | nil => simp [allRequiredValid]
  | cons f fs ih =>
    simp only [List.foldl_cons]
    by_cases hr : f.required = true
    · simp only [hr, if_true]
      rw [ih]
      cases hv : (validateField f).1 <;>
        simp [allRequiredValid, hr, hv]
    · simp only [hr]
      rw [ih]
      simp [allRequiredValid, hr]

/-- The result of `validateForm` in closed form. -/
theorem validateForm_eq (form : List Field) :
    validateForm form =
      (allRequiredValid form,
       form.map (fun f => if f.required then (validateField f).2 else f)) := by
  unfold validateForm
  rw [validateForm_foldl]
  simp

/-- Validation changes neither the name nor the value of a control. -/
theorem validateField_name_value (f : Field) :
    (validateField f).2.name = f.name ∧ (validateField f).2.value = f.value := by
  by_cases h : (checkField f).1 = true <;> simp [validateField, h]

/-- Reading a value is not affected by a validation pass. -/
theorem formDataGet_validated (form : List Field) (name : String) :
    formDataGet (form.map (fun f => if f.required then (validateField f).2 else f)) name =
      formDataGet form name := by
  unfold formDataGet
  induction form with
  | nil => rfl
  | cons f fs ih =>
    have hn : (if f.required then (validateField f).2 else f).name = f.name := by
      split
      · exact (validateField_name_value f).1
      · rfl
    have hv : (if f.required then (validateField f).2 else f).value = f.value := by
      split
      · exact (validateField_name_value f).2
      · rfl
    simp only [List.map_cons, List.find?_cons, hn]
    cases f.name == name
    · simpa using ih
    · simp [hv]

/-- The snapshot taken after validation is the snapshot of the form as it was. -/
theorem formSnapshot_validated (form : List Field) :
    formSnapshot (validateForm form).2 = formSnapshot form := by
  rw [validateForm_eq]
  simp [formSnapshot, formDataGet_validated]

/-- The toast count is additive over the log. -/
theorem toastCount_append (a b : List Call) :
    toastCount (a ++ b) = toastCount a + toastCount b := by
  simp [toastCount, List.filter_append]

/-- Every required control validates, stated over the members of the form. -/
theorem allRequiredValid_iff (form : List Field) :
    allRequiredValid form = true ↔
      ∀ f ∈ form, f.required = true → (validateField f).1 = true := by
  simp only [allRequiredValid, List.all_eq_true, Bool.or_eq_true, Bool.not_eq_true']
  constructor
  · intro h f hf hr
    rcases h f hf with h1 | h1
    · rw [hr] at h1; exact absurd h1 (by decide)
    · exact h1
  · intro h f hf
    cases hr : f.required
    · exact Or.inl rfl
    · exact Or.inr (h f hf hr)

/-! ## C1: order of the rules -/

/-- C1, as stated, fails: for the input of kind email named `name` whose
trimmed value is `a`, the first rule that fails is the email rule, yet
`validateField` reports the message of the name rule, which it also shows
next to the field. -/
theorem first_failure_does_not_win :
    trim emailFieldNamedName.value = js "a" ∧
    emailFieldNamedName.type = "email" ∧ emailFieldNamedName.name = "name" ∧
    specFieldValidator emailFieldNamedName = some "Please enter a valid email address." ∧
    checkField emailFieldNamedName = (false, "Name must be at least 2 characters long.") ∧
    (validateField emailFieldNamedName).1 = false ∧
    (validateField emailFieldNamedName).2.nextElementSibling =
      some { invalidFeedback := true,
             textContent := "Name must be at least 2 characters long." } ∧
    ¬ (∀ field : Field, (checkField field).1 = false →
        specFieldValidator field = some (checkField field).2) := by
  refine ⟨by decide, by decide, by decide, by decide, by decide, by decide, by decide, ?_⟩
  intro h
  exact absurd (h emailFieldNamedName (by decide)) (by decide)

/-- C1, amended: every failing rule overwrites the reason, so the last
failure wins. `validateField` returns false exactly when some rule fails, the
reason is then the message of the last rule (in the order required-empty,
email pattern, name length, message length) that fails, and that reason is the
text written to the `invalid-feedback` element next to the field. For a field
of kind email named `name` whose trimmed value is `a` the reason is the
message of the name rule. -/
theorem validateField_last_failure_wins (field : Field) :
    ((validateField field).1 = (lastFailure field).isNone) ∧
    (∀ m, lastFailure field = some m →
      checkField field = (false, m) ∧
      (validateField field).2.isInvalid = true ∧
      ∀ fb, field.nextElementSibling = some fb → fb.invalidFeedback = true →
        (validateField field).2.nextElementSibling = some { fb with textContent := m }) ∧
    (field.type = "email" → field.name = "name" → trim field.value = js "a" →
      lastFailure field = some "Name must be at least 2 characters long.") := by
  refine ⟨?_, ?_, ?_⟩
  · unfold validateField
    rw [checkField_eq_lastFailure]
    cases lastFailure field <;> simp
  · intro m hm
    have hc : checkField field = (false, m) := by
      rw [checkField_eq_lastFailure, hm]
    refine ⟨hc, ?_, ?_⟩
    · simp [validateField, hc]
    · intro fb hfb hcls
      simp [validateField, hc, hfb, setFeedback, hcls]
  · intro ht hn hv
    have h1 : nameFails field = true := by
      simp only [nameFails, hn, hv]; decide
    have h2 : messageFails field = false := by
      simp [messageFails, hn]
    simp [lastFailure, h1, h2, msgName]

/-- The amended C1 at the input of kind email named `name` holding `a`. -/
theorem validateField_last_failure_wins_witness :
    checkField emailFieldNamedName = (false, "Name must be at least 2 characters long.") ∧
    (validateField emailFieldNamedName).2.isInvalid = true :=
  ⟨((validateField_last_failure_wins emailFieldNamedName).2.1 _ (by decide)).1,
   ((validateField_last_failure_wins emailFieldNamedName).2.1
      "Name must be at least 2 characters long." (by decide)).2.1⟩

/-! ## C2: the email pattern -/

/-- C2, as stated, fails: `a@b.c@d` has the shape worded by the
specification (the part after the dot, `c@d`, has no white space) and the
regex worded by the specification accepts it, but the regex of the source
rejects it, so `validateEmail` is false and the email rule of `validateField`
fails on an email input holding it. -/
theorem spec_pattern_differs_after_dot :
    EmailShape notSpace (js "a@b.c@d") ∧
    regexTest specEmailRegex (js "a@b.c@d") = true ∧
    validateEmail (js "a@b.c@d") = false ∧
    emailFieldAtAfterDot.type = "email" ∧
    trim emailFieldAtAfterDot.value = js "a@b.c@d" ∧
    emailFails emailFieldAtAfterDot = true ∧
    validateField emailFieldAtAfterDot =
      (false, { emailFieldAtAfterDot with
                  isInvalid := true,
                  nextElementSibling :=
                    some { invalidFeedback := true,
                           textContent := "Please enter a valid email address." } }) := by
  refine ⟨?_, by decide, by decide, by decide, by decide, by decide, by decide⟩
  exact (regexTest_specEmailRegex _).mp (by decide)

/-- C2, amended: for a field of kind email with a non-empty trimmed value `v`,
the email rule of `validateField` passes, and `validateEmail v` is true,
exactly when `v` is one or more code units that are neither white space nor
`@`, then `@`, then one or more such code units, then `.`, then again one or
more code units that are neither white space nor `@`. A field that passes the
email rule is reported valid unless it is named `message` and is shorter than
ten. `user@example.com` passes; `user@@`, `user`, `user@domain` and `a@b.c@d`
fail. -/
theorem email_rule_iff_shape (field : Field) (hk : field.type = "email")
    (hne : trim field.value ≠ []) :
    (emailFails field = false ↔ EmailShape notSpaceAt (trim field.value)) ∧
    (∀ v : JSString, validateEmail v = true ↔ EmailShape notSpaceAt v) ∧
    ((validateField field).1 = true ↔
      EmailShape notSpaceAt (trim field.value) ∧ messageFails field = false) ∧
    validateEmail (js "user@example.com") = true ∧
    validateEmail (js "user@@") = false ∧
    validateEmail (js "user") = false ∧
    validateEmail (js "user@domain") = false ∧
    validateEmail (js "a@b.c@d") = false := by
  have hemp : (trim field.value).isEmpty = false := by
    cases h : trim field.value with
    | nil => exact absurd h hne
    | cons x xs => rfl
  have h1 : emailFails field = false ↔ EmailShape notSpaceAt (trim field.value) := by
    rw [← regexTest_emailRegex]
    simp [emailFails, hk, hemp]
  refine ⟨h1, fun v => regexTest_emailRegex v, ?_, by decide, by decide, by decide,
    by decide, by decide⟩
  have hreq : requiredFails field = false := by simp [requiredFails, hemp]
  rw [validateField_fst, hreq]
  constructor
  · intro h
    simp only [Bool.not_false, Bool.true_and, Bool.and_eq_true, Bool.not_eq_true',
      Bool.not_eq_eq_eq_not, Bool.not_true] at h
    exact ⟨h1.mp h.1.1, h.2⟩
  · rintro ⟨hs, hm⟩
    have h5 := hs.five_le_length
    have hn : nameFails field = false := by
      simp only [nameFails, Bool.and_eq_false_imp, Bool.and_eq_true, decide_eq_false_iff_not]
      intro _
      omega
    simp [h1.mpr hs, hn, hm]

/-- The amended C2 at the email input holding `a@b.c@d`. -/
theorem email_rule_iff_shape_witness :
    emailFieldAtAfterDot.type = "email" ∧ trim emailFieldAtAfterDot.value ≠ [] ∧
    ¬ EmailShape notSpaceAt (trim emailFieldAtAfterDot.value) :=
  ⟨by decide, by decide, fun h =>
    absurd ((email_rule_iff_shape emailFieldAtAfterDot (by decide) (by decide)).1.mpr h)
      (by decide)⟩

/-! ## C5: required and empty -/

/-- C5: a required field whose value is empty after trimming is reported
invalid with the reason `This field is required.`, whatever its kind and
name; it gets the invalid mark and the reason is the text written to the
`invalid-feedback` element next to it. -/
theorem required_empty_is_invalid (field : Field) (hr : field.required = true)
    (he : trim field.value = []) :
    checkField field = (false, "This field is required.") ∧
    (validateField field).1 = false ∧
    (validateField field).2.isInvalid = true ∧
    (validateField field).2.isValid = false ∧
    ∀ fb, field.nextElementSibling = some fb → fb.invalidFeedback = true →
      (validateField field).2.nextElementSibling =
        some { fb with textContent := "This field is required." } := by
  have hc : checkField field = (false, "This field is required.") := by
    simp [checkField, requiredFails, emailFails, nameFails, messageFails, hr, he, msgRequired]
  exact ⟨hc, validateField_invalid_display field _ hc⟩

/-- C5 at a required textarea named `message` holding two spaces and a tab. -/
theorem required_empty_is_invalid_witness :
    (mkField "message" "textarea" true "  \t").required = true ∧
    trim (mkField "message" "textarea" true "  \t").value = [] ∧
    checkField (mkField "message" "textarea" true "  \t") =
      (false, "This field is required.") :=
  ⟨by decide, by decide,
   (required_empty_is_invalid (mkField "message" "textarea" true "  \t")
      (by decide) (by decide)).1⟩

/-! ## C6: minimum lengths -/

/-- C6: for a required field of kind text or textarea, `validateField`
returns true exactly when the trimmed value has at least 2 code units if the
field is named `name`, and at least 10 if it is named `message`. `A` is
invalid and `Al` valid as a name; a message of 9 is invalid and one of 10
valid. -/
theorem min_length_thresholds (field : Field) (hr : field.required = true)
    (hk : field.type = "text" ∨ field.type = "textarea") :
    (field.name = "name" →
      ((validateField field).1 = true ↔ 2 ≤ (trim field.value).length)) ∧
    (field.name = "message" →
      ((validateField field).1 = true ↔ 10 ≤ (trim field.value).length)) ∧
    (validateField (mkField "name" "text" true "A")).1 = false ∧
    (validateField (mkField "name" "text" true "Al")).1 = true ∧
    (validateField (mkField "message" "textarea" true "123456789")).1 = false ∧
    (validateField (mkField "message" "textarea" true "1234567890")).1 = true := by
  have hem : emailFails field = false := by
    rcases hk with hk | hk <;> simp [emailFails, hk]
  refine ⟨?_, ?_, by decide, by decide, by decide, by decide⟩
  · intro hn
    rw [validateField_fst, hem]
    cases hv : trim field.value with
    | nil => simp [requiredFails, nameFails, messageFails, hr, hn, hv]
    | cons x xs => simp [requiredFails, nameFails, messageFails, hr, hn, hv]
  · intro hn
    rw [validateField_fst, hem]
    cases hv : trim field.value with
    | nil => simp [requiredFails, nameFails, messageFails, hr, hn, hv]
    | cons x xs => simp [requiredFails, nameFails, messageFails, hr, hn, hv]

/-- C6 at a required text input named `name` holding ` Al `. -/
theorem min_length_thresholds_witness :
    (mkField "name" "text" true " Al ").required = true ∧
    (validateField (mkField "name" "text" true " Al ")).1 = true :=
  ⟨by decide,
   ((min_length_thresholds (mkField "name" "text" true " Al ") (by decide)
      (Or.inl (by decide))).1 (by decide)).mpr (by decide)⟩

/-! ## C7: validateForm visits every required field -/

/-- C7: `validateForm` applies `validateField` to every required control,
also to those after the first invalid one, and to no other control; the
control at each position is left as `validateField` leaves it, so every
invalid required control carries the invalid mark and its own reason. It
returns true exactly when `validateField` returns true for every required
control: true for the empty list, false for one invalid and one valid control,
and two invalid controls are both marked, each with its reason. -/
theorem validateForm_visits_every_field (form : List Field) :
    (validateForm form).2 =
      form.map (fun f => if f.required then (validateField f).2 else f) ∧
    ((validateForm form).1 = true ↔
      ∀ f ∈ form, f.required = true → (validateField f).1 = true) ∧
    (∀ (i : Nat) (f : Field), form[i]? = some f → f.required = true →
      (validateField f).1 = false →
      (validateForm form).2[i]? = some (validateField f).2 ∧
      (validateField f).2.isInvalid = true ∧ (validateField f).2.isValid = false ∧
      (validateField f).2.nextElementSibling =
        setFeedback f.nextElementSibling (checkField f).2) ∧
    validateForm [] = (true, []) ∧
    validateForm [mkField "name" "text" true "A", mkField "subject" "text" true "Hi"] =
      (false,
       [{ mkField "name" "text" true "A" with
            isInvalid := true,
            nextElementSibling :=
              some { invalidFeedback := true,
                     textContent := "Name must be at least 2 characters long." } },
        { mkField "subject" "text" true "Hi" with isValid := true }]) ∧
    validateForm [mkField "name" "text" true "A", mkField "message" "textarea" true "short"] =
      (false,
       [{ mkField "name" "text" true "A" with
            isInvalid := true,
            nextElementSibling :=
              some { invalidFeedback := true,
                     textContent := "Name must be at least 2 characters long." } },
        { mkField "message" "textarea" true "short" with
            isInvalid := true,
            nextElementSibling :=
              some { invalidFeedback := true,
                     textContent := "Message must be at least 10 characters long." } }]) := by
  refine ⟨by rw [validateForm_eq], ?_, ?_, by decide, by decide, by decide⟩
  · rw [validateForm_eq]
    exact allRequiredValid_iff form
  · intro i f hi hr hv
    rw [validateForm_eq]
    refine ⟨by simp [List.getElem?_map, hi, hr], ?_⟩
    have hc : (checkField f).1 = false := by
      by_cases h : (checkField f).1 = true
      · simp [validateField, h] at hv
      · simpa using h
    simp [validateField, hc]

/-- C7 at a form of two invalid required controls: the second one is visited
and marked although the first already failed. -/
theorem validateForm_visits_every_field_witness :
    (validateForm [mkField "name" "text" true "A",
        mkField "message" "textarea" true "short"]).2[1]? =
      some (validateField (mkField "message" "textarea" true "short")).2 ∧
    (validateField (mkField "message" "textarea" true "short")).2.isInvalid = true :=
  ⟨((validateForm_visits_every_field [mkField "name" "text" true "A",
        mkField "message" "textarea" true "short"]).2.2.1 1
      (mkField "message" "textarea" true "short") (by decide) (by decide) (by decide)).1,
   ((validateForm_visits_every_field [mkField "name" "text" true "A",
        mkField "message" "textarea" true "short"]).2.2.1 1
      (mkField "message" "textarea" true "short") (by decide) (by decide) (by decide)).2.1⟩

/-! ## C8: a request only from a valid form -/

/-- C8: the submit listener calls `submitForm` exactly when `validateField`
holds for every required control. In that case the button goes to loading and
one timer is added, holding the snapshot of name, email, subject and message;
otherwise the timers, the button and the log of calls are as they were. So a
new timer implies a fully valid form. -/
theorem submit_only_from_valid_form (c : Controller) :
    onSubmit c =
      (if allRequiredValid c.form then submitForm { c with form := (validateForm c.form).2 }
       else { c with form := (validateForm c.form).2 }) ∧
    (allRequiredValid c.form = true →
      (onSubmit c).timers = c.timers ++ [formSnapshot c.form] ∧
      (onSubmit c).submitBtn = setLoadingState true c.submitBtn ∧
      (onSubmit c).submitBtn.disabled = true) ∧
    (allRequiredValid c.form = false →
      (onSubmit c).timers = c.timers ∧ (onSubmit c).submitBtn = c.submitBtn ∧
      (onSubmit c).calls = c.calls) ∧
    ((onSubmit c).timers ≠ c.timers →
      ∀ f ∈ c.form, f.required = true → (validateField f).1 = true) := by
  have hfst : (validateForm c.form).1 = allRequiredValid c.form := by rw [validateForm_eq]
  have hsnap := formSnapshot_validated c.form
  have hvalid : allRequiredValid c.form = true →
      (onSubmit c).timers = c.timers ++ [formSnapshot c.form] ∧
      (onSubmit c).submitBtn = setLoadingState true c.submitBtn ∧
      (onSubmit c).submitBtn.disabled = true := by
    intro h
    simp [onSubmit, hfst, h, submitForm, hsnap, setLoadingState]
  have hinvalid : allRequiredValid c.form = false →
      (onSubmit c).timers = c.timers ∧ (onSubmit c).submitBtn = c.submitBtn ∧
      (onSubmit c).calls = c.calls := by
    intro h
    simp [onSubmit, hfst, h]
  refine ⟨?_, hvalid, hinvalid, ?_⟩
  · simp only [onSubmit, hfst]
  · intro hne f hf hr
    cases h : allRequiredValid c.form with
    | false => exact absurd (hinvalid h).1 hne
    | true =>
      exact (allRequiredValid_iff c.form).mp h f hf hr

/-- C8 at a form whose name is too short: no timer, the button unchanged. -/
theorem submit_only_from_valid_form_witness :
    allRequiredValid [mkField "name" "text" true "A"] = false ∧
    (onSubmit { idleController with form := [mkField "name" "text" true "A"] }).timers = [] ∧
    (onSubmit { idleController with form := [mkField "name" "text" true "A"] }).submitBtn =
      idleBtn :=
  ⟨by decide,
   ((submit_only_from_valid_form
      { idleController with form := [mkField "name" "text" true "A"] }).2.2.1 (by decide)).1,
   ((submit_only_from_valid_form
      { idleController with form := [mkField "name" "text" true "A"] }).2.2.1 (by decide)).2.1⟩

/-! ## C3: re-entry while a submission is in flight -/

/-- C3, as stated, fails: after one submit of the valid sample form the
button is disabled and one timer is pending; a second submit event then adds a
second timer, and when both timers have fired two notifications have been
shown. -/
theorem second_submit_starts_second_call :
    (onSubmit idleController).submitBtn.disabled = true ∧
    (onSubmit idleController).timers.length = 1 ∧
    allRequiredValid (onSubmit idleController).form = true ∧
    (onSubmit (onSubmit idleController)).timers.length = 2 ∧
    toastCount
      (fireTimer true (fireTimer false (onSubmit (onSubmit idleController)))).calls = 2 ∧
    ¬ (∀ c : Controller, c.submitBtn.disabled = true → c.timers ≠ [] →
        allRequiredValid c.form = true → (onSubmit c).timers = c.timers) := by
  refine ⟨by decide, by decide, by decide, by decide, by decide, ?_⟩
  intro h
  have h2 := h (onSubmit idleController) (by decide) (by decide) (by decide)
  exact absurd (congrArg List.length h2) (by decide)

/-- C3, amended: the only protection against re-entry is that `submitForm`
disables the button. The submit listener does not look at the button or at the
pending timers: in every state, also while a submission is in flight, a submit
event on a form whose required controls are all valid adds one more timer, and
every timer that fires removes itself and shows one notification. -/
theorem submit_has_no_reentry_guard (c : Controller)
    (hv : allRequiredValid c.form = true) :
    (onSubmit c).timers = c.timers ++ [formSnapshot c.form] ∧
    (onSubmit c).timers.length = c.timers.length + 1 ∧
    (onSubmit c).submitBtn.disabled = true ∧
    (∀ (success : Bool) (c2 : Controller) (data : SubmissionData)
        (rest : List SubmissionData), c2.timers = data :: rest →
      (fireTimer success c2).timers = rest ∧
      toastCount (fireTimer success c2).calls = toastCount c2.calls + 1) := by
  have hfst : (validateForm c.form).1 = true := by rw [validateForm_eq]; exact hv
  have ht : (onSubmit c).timers = c.timers ++ [formSnapshot c.form] := by
    simp [onSubmit, hfst, submitForm, formSnapshot_validated]
  refine ⟨ht, by simp [ht], by simp [onSubmit, hfst, submitForm, setLoadingState], ?_⟩
  intro success c2 data rest hc2
  cases success <;> cases hg : c2.gtagDefined <;>
    simp [fireTimer, hc2, timerCallback, handleSubmissionSuccess, handleSubmissionError, hg,
      toastCount_append, toastCount]

/-- The amended C3 at the sample form while its first submission is in
flight: the second submit event leaves two timers pending. -/
theorem submit_has_no_reentry_guard_witness :
    (onSubmit idleController).submitBtn.disabled = true ∧
    allRequiredValid (onSubmit idleController).form = true ∧
    (onSubmit (onSubmit idleController)).timers.length =
      (onSubmit idleController).timers.length + 1 :=
  ⟨by decide, by decide,
   (submit_has_no_reentry_guard (onSubmit idleController) (by decide)).2.1⟩

/-! ## C4: missing elements at initialisation -/

/-- C4 on the code: on a page with neither the form nor the button,
`initializeContactForm` ends with a `TypeError` and logs no warning; the same
holds whenever the button is absent, with or without the form. The warning and
the early return are reached only when the button is present. -/
theorem initializeContactForm_throws_without_button :
    initializeContactForm pageWithoutForm = Except.error nullQuerySelector ∧
    (∀ (form : Option (List Field)) (g : Bool),
      initializeContactForm { contactForm := form, submitBtn := none, gtagDefined := g } =
        Except.error nullQuerySelector) ∧
    (∀ (btn : SubmitBtn) (g : Bool),
      initializeContactForm { contactForm := none, submitBtn := some btn, gtagDefined := g } =
        Except.ok (InitResult.skipped [Call.consoleWarn "Contact form not found"])) :=
  ⟨rfl, fun _ _ => rfl, fun _ _ => rfl⟩

/-! ## C9: outcome Success -/

/-- C9, as stated, fails: on a form whose control has the default value `Hi`,
the success callback leaves the value `Hi`, not the empty string. -/
theorem success_restores_default_values :
    prefilledController.timers.length = 1 ∧
    prefilledController.form.map (fun f => f.value) = [js "Hello"] ∧
    (fireTimer true prefilledController).form.map (fun f => f.value) = [js "Hi"] ∧
    ¬ (∀ (data : SubmissionData) (c : Controller),
        ∀ f ∈ (timerCallback true data c).form, f.value = []) := by
  refine ⟨by decide, by decide, by decide, ?_⟩
  intro h
  exact absurd (h (formSnapshot [prefilledSubject]) prefilledController
    { prefilledSubject with value := js "Hi" } (by decide)) (by decide)

/-- C9, amended: when the timer callback runs with outcome Success,
`showToast` is called exactly once, with kind `success` and the success
message; every control's value is reset to its default value (so all values
are empty when all defaults are); every control ends with neither the valid nor
the invalid mark; and the button ends enabled, not loading. -/
theorem success_resets_form (data : SubmissionData) (c : Controller) :
    (timerCallback true data c).calls =
      c.calls ++
        (Call.showToast "success" "Message sent successfully! I\x27ll get back to you soon." ::
         Call.consoleLog "Form submitted successfully:" data ::
         (if c.gtagDefined then [Call.gtag "event" "form_submit" "Contact" "Contact Form"]
          else [])) ∧
    toastCount (timerCallback true data c).calls = toastCount c.calls + 1 ∧
    (timerCallback true data c).form.map (fun f => f.value) =
      c.form.map (fun f => f.defaultValue) ∧
    ((∀ f ∈ c.form, f.defaultValue = []) →
      ∀ f ∈ (timerCallback true data c).form, f.value = []) ∧
    (∀ f ∈ (timerCallback true data c).form, f.isValid = false ∧ f.isInvalid = false) ∧
    (timerCallback true data c).form.length = c.form.length ∧
    (timerCallback true data c).submitBtn = idleBtn ∧
    (∀ rest, c.timers = data :: rest →
      fireTimer true c = timerCallback true data { c with timers := rest }) := by
  have hform : (timerCallback true data c).form = resetForm c.form := by
    cases hg : c.gtagDefined <;> simp [timerCallback, handleSubmissionSuccess, hg]
  have hmem : ∀ f ∈ resetForm c.form, ∃ g ∈ c.form,
      f.value = g.defaultValue ∧ f.isValid = false ∧ f.isInvalid = false := by
    intro f hf
    simp only [resetForm, List.map_map, List.mem_map, Function.comp] at hf
    obtain ⟨g, hg, rfl⟩ := hf
    refine ⟨g, hg, ?_⟩
    cases h1 : g.isValid <;> cases h2 : g.isInvalid <;> simp [h1, h2]
  refine ⟨?_, ?_, ?_, ?_, ?_, ?_, ?_, ?_⟩
  · cases hg : c.gtagDefined <;>
      simp [timerCallback, handleSubmissionSuccess, hg, msgSuccess]
  · cases hg : c.gtagDefined <;>
      simp [timerCallback, handleSubmissionSuccess, hg, toastCount_append, toastCount]
  · rw [hform]
    simp only [resetForm, List.map_map]
    apply List.map_congr_left
    intro g _
    simp only [Function.comp]
    split <;> rfl
  · intro hd f hf
    rw [hform] at hf
    obtain ⟨g, hg, hval, -, -⟩ := hmem f hf
    rw [hval]; exact hd g hg
  · intro f hf
    rw [hform] at hf
    obtain ⟨g, -, -, h1, h2⟩ := hmem f hf
    exact ⟨h1, h2⟩
  · rw [hform]; simp [resetForm]
  · cases hg : c.gtagDefined <;>
      simp [timerCallback, handleSubmissionSuccess, hg, setLoadingState, idleBtn]
  · intro rest hrest
    simp [fireTimer, hrest]

/-- The amended C9 at the sample form, whose defaults are all empty: every
value is empty after the success callback. -/
theorem success_resets_form_witness :
    (timerCallback true (formSnapshot sampleForm) (onSubmit idleController)).form.map
        (fun f => f.value) = [[], [], [], []] ∧
    ∀ f ∈ (timerCallback true (formSnapshot sampleForm) (onSubmit idleController)).form,
      f.value = [] :=
  ⟨by decide,
   (success_resets_form (formSnapshot sampleForm) (onSubmit idleController)).2.2.2.1
     (by decide)⟩

/-! ## C10: outcome Failure -/

/-- C10: when the timer callback runs with outcome Failure, the form (every
value, every mark, every error text) is exactly as it was; `showToast` is
called exactly once, with kind `error` and the failure message; the button ends
enabled, not loading; and a further submit event on the form, if its required
controls are all valid, is accepted: it adds a timer and sets the button to
loading again. -/
theorem failure_keeps_form (data : SubmissionData) (c : Controller) :
    (timerCallback false data c).form = c.form ∧
    (timerCallback false data c).calls =
      c.calls ++
        (Call.showToast "error" "Failed to send message. Please try again." ::
         (if c.gtagDefined then [Call.gtag "event" "form_error" "Contact" "Contact Form Error"]
          else [])) ∧
    toastCount (timerCallback false data c).calls = toastCount c.calls + 1 ∧
    (timerCallback false data c).submitBtn = idleBtn ∧
    (timerCallback false data c).submitBtn.disabled = false ∧
    (timerCallback false data c).timers = c.timers ∧
    (allRequiredValid c.form = true →
      (onSubmit (timerCallback false data c)).timers = c.timers ++ [formSnapshot c.form] ∧
      (onSubmit (timerCallback false data c)).submitBtn.disabled = true) ∧
    (∀ rest, c.timers = data :: rest →
      fireTimer false c = timerCallback false data { c with timers := rest }) := by
  have hform : (timerCallback false data c).form = c.form := by
    cases hg : c.gtagDefined <;> simp [timerCallback, handleSubmissionError, hg]
  have htimers : (timerCallback false data c).timers = c.timers := by
    cases hg : c.gtagDefined <;> simp [timerCallback, handleSubmissionError, hg]
  have hbtn : (timerCallback false data c).submitBtn = idleBtn := by
    cases hg : c.gtagDefined <;>
      simp [timerCallback, handleSubmissionError, hg, setLoadingState, idleBtn]
  refine ⟨hform, ?_, ?_, hbtn, by rw [hbtn]; rfl, htimers, ?_, ?_⟩
  · cases hg : c.gtagDefined <;>
      simp [timerCallback, handleSubmissionError, hg, msgFailure]
  · cases hg : c.gtagDefined <;>
      simp [timerCallback, handleSubmissionError, hg, toastCount_append, toastCount]
  · intro hv
    have hfst : (validateForm (timerCallback false data c).form).1 = true := by
      rw [hform, validateForm_eq]; exact hv
    have hsnap : formSnapshot (validateForm (timerCallback false data c).form).2 =
        formSnapshot c.form := by
      rw [hform]; exact formSnapshot_validated c.form
    constructor
    · simp [onSubmit, hfst, submitForm, hsnap, htimers]
    · simp [onSubmit, hfst, submitForm, setLoadingState]
  · intro rest hrest
    simp [fireTimer, hrest]

/-- C10 at the sample form after a failed first attempt: the values are kept
and the next submit event starts a new timer. -/
theorem failure_keeps_form_witness :
    allRequiredValid (onSubmit idleController).form = true ∧
    (timerCallback false (formSnapshot sampleForm) (onSubmit idleController)).form =
      (onSubmit idleController).form ∧
    (onSubmit (timerCallback false (formSnapshot sampleForm)
        (onSubmit idleController))).submitBtn.disabled = true :=
  ⟨by decide,
   (failure_keeps_form (formSnapshot sampleForm) (onSubmit idleController)).1,
   ((failure_keeps_form (formSnapshot sampleForm) (onSubmit idleController)).2.2.2.2.2.2.1
      (by decide)).2⟩

/-! ## C11: what a validation displays -/

/-- C11, as stated, fails: the name input that showed the reason for `A` and
is then validated with `Al` gets the valid mark and loses the invalid mark, but
the element next to it still holds the reason, since the valid branch never
writes the text; and an invalid input whose next element lacks the class
`invalid-feedback` keeps the text of that element instead of the reason. -/
theorem valid_result_keeps_error_text :
    validateField shortNameField =
      (false, { shortNameField with
                  isInvalid := true,
                  nextElementSibling :=
                    some { invalidFeedback := true,
                           textContent := "Name must be at least 2 characters long." } }) ∧
    completedNameField.value = js "Al" ∧
    validateField completedNameField =
      (true, { completedNameField with
                 isValid := true,
                 nextElementSibling :=
                   some { invalidFeedback := true,
                          textContent := "Name must be at least 2 characters long." } }) ∧
    checkField helpTextField = (false, "Name must be at least 2 characters long.") ∧
    (validateField helpTextField).2.nextElementSibling =
      some { invalidFeedback := false, textContent := "Your name" } ∧
    ¬ (∀ field : Field, (validateField field).1 = true →
        ∀ fb, (validateField field).2.nextElementSibling = some fb → fb.textContent = "") := by
  refine ⟨by decide, by decide, by decide, by decide, by decide, ?_⟩
  intro h
  exact absurd (h completedNameField (by decide) _ rfl) (by decide)

/-- C11, amended: after `validateField`, if the result is valid the field
carries the valid mark and not the invalid mark, and the element next to it is
left exactly as it was (its text is not cleared); if the result is invalid the
field carries the invalid mark and not the valid mark, and the element next to
it gets the reason as its text when it exists and has the class
`invalid-feedback`, and is left as it was otherwise. Name, kind, required flag,
value and default value are never changed. -/
theorem validateField_display (field : Field) :
    ((validateField field).1 = true →
      (validateField field).2.isValid = true ∧
      (validateField field).2.isInvalid = false ∧
      (validateField field).2.nextElementSibling = field.nextElementSibling) ∧
    ((validateField field).1 = false →
      (validateField field).2.isInvalid = true ∧
      (validateField field).2.isValid = false ∧
      lastFailure field = some (checkField field).2 ∧
      (∀ fb, field.nextElementSibling = some fb → fb.invalidFeedback = true →
        (validateField field).2.nextElementSibling =
          some { fb with textContent := (checkField field).2 }) ∧
      (∀ fb, field.nextElementSibling = some fb → fb.invalidFeedback = false →
        (validateField field).2.nextElementSibling = some fb) ∧
      (field.nextElementSibling = none →
        (validateField field).2.nextElementSibling = none)) ∧
    ((validateField field).2.name = field.name ∧
      (validateField field).2.type = field.type ∧
      (validateField field).2.required = field.required ∧
      (validateField field).2.value = field.value ∧
      (validateField field).2.defaultValue = field.defaultValue) := by
  by_cases hc : (checkField field).1 = true
  · refine ⟨fun _ => by simp [validateField, hc], fun h => ?_, by simp [validateField, hc]⟩
    simp [validateField, hc] at h
  · have hc2 : (checkField field).1 = false := by simpa using hc
    have hpair : checkField field = (false, (checkField field).2) := by
      rw [← hc2]
    have hlast : lastFailure field = some (checkField field).2 := by
      have h := checkField_eq_lastFailure field
      cases hl : lastFailure field with
      | none => rw [hl] at h; rw [h] at hc2; exact absurd hc2 (by decide)
      | some m => rw [hl] at h; rw [h]
    have hdisp := validateField_invalid_display field _ hpair
    refine ⟨fun h => ?_, fun _ => ⟨hdisp.2.1, hdisp.2.2.1, hlast, hdisp.2.2.2, ?_, ?_⟩,
      by simp [validateField, hc2]⟩
    · simp [validateField, hc2] at h
    · intro fb hfb hcls
      simp [validateField, hc2, hfb, setFeedback, hcls]
    · intro hnone
      simp [validateField, hc2, hnone, setFeedback]

/-- The amended C11 at the name input completed to `Al`: it is valid, marked
valid, and the element next to it is the one it had, reason included. -/
theorem validateField_display_witness :
    (validateField completedNameField).1 = true ∧
    (validateField completedNameField).2.isValid = true ∧
    (validateField completedNameField).2.nextElementSibling =
      some { invalidFeedback := true,
             textContent := "Name must be at least 2 characters long." } :=
  ⟨by decide,
   ((validateField_display completedNameField).1 (by decide)).1,
   ((validateField_display completedNameField).1 (by decide)).2.2.trans (by decide)⟩

end ContactForm
